import Mathlib

set_option maxRecDepth 20000
set_option maxHeartbeats 1000000

/-!
Formal model of the QR-code generator core: the error-correction pipeline of
ec.rs and the matrix / functional-pattern / data-walk engine of qrcode.rs.
Rust panics (out-of-range indexing, `unwrap` on `None`, integer underflow,
`chunks(0)`) are modelled as `none`; all other code paths are translated
directly.
-/

/-- Error-correction level, from the `EcLevel` enum in ec.rs (variants in source order). -/
inductive EcLevel where
  | H
  | Q
  | M
  | L
deriving DecidableEq

/-- Column index of an `EcLevel` into the parameter tables, from `EcLevel::ordinal` in ec.rs. -/
def EcLevel.ordinal : EcLevel → Nat
  | .L => 0
  | .M => 1
  | .Q => 2
  | .H => 3

/-- Table of 2^n values in GF(256), transcribed from EXP_TABLE in ec.rs. -/
def EXP_TABLE : List Nat :=
  [1, 2, 4, 8, 16, 32, 64, 128, 29, 58, 116, 232, 205, 135, 19, 38,
   76, 152, 45, 90, 180, 117, 234, 201, 143, 3, 6, 12, 24, 48, 96, 192,
   157, 39, 78, 156, 37, 74, 148, 53, 106, 212, 181, 119, 238, 193, 159, 35,
   70, 140, 5, 10, 20, 40, 80, 160, 93, 186, 105, 210, 185, 111, 222, 161,
   95, 190, 97, 194, 153, 47, 94, 188, 101, 202, 137, 15, 30, 60, 120, 240,
   253, 231, 211, 187, 107, 214, 177, 127, 254, 225, 223, 163, 91, 182, 113, 226,
   217, 175, 67, 134, 17, 34, 68, 136, 13, 26, 52, 104, 208, 189, 103, 206,
   129, 31, 62, 124, 248, 237, 199, 147, 59, 118, 236, 197, 151, 51, 102, 204,
   133, 23, 46, 92, 184, 109, 218, 169, 79, 158, 33, 66, 132, 21, 42, 84,
   168, 77, 154, 41, 82, 164, 85, 170, 73, 146, 57, 114, 228, 213, 183, 115,
   230, 209, 191, 99, 198, 145, 63, 126, 252, 229, 215, 179, 123, 246, 241, 255,
   227, 219, 171, 75, 150, 49, 98, 196, 149, 55, 110, 220, 165, 87, 174, 65,
   130, 25, 50, 100, 200, 141, 7, 14, 28, 56, 112, 224, 221, 167, 83, 166,
   81, 162, 89, 178, 121, 242, 249, 239, 195, 155, 43, 86, 172, 69, 138, 9,
   18, 36, 72, 144, 61, 122, 244, 245, 247, 243, 251, 235, 203, 139, 11, 22,
   44, 88, 176, 125, 250, 233, 207, 131, 27, 54, 108, 216, 173, 71, 142, 1]

/-- Table of discrete logarithms in GF(256), transcribed from LOG_TABLE in ec.rs. -/
def LOG_TABLE : List Nat :=
  [255, 0, 1, 25, 2, 50, 26, 198, 3, 223, 51, 238, 27, 104, 199, 75,
   4, 100, 224, 14, 52, 141, 239, 129, 28, 193, 105, 248, 200, 8, 76, 113,
   5, 138, 101, 47, 225, 36, 15, 33, 53, 147, 142, 218, 240, 18, 130, 69,
   29, 181, 194, 125, 106, 39, 249, 185, 201, 154, 9, 120, 77, 228, 114, 166,
   6, 191, 139, 98, 102, 221, 48, 253, 226, 152, 37, 179, 16, 145, 34, 136,
   54, 208, 148, 206, 143, 150, 219, 189, 241, 210, 19, 92, 131, 56, 70, 64,
   30, 66, 182, 163, 195, 72, 126, 110, 107, 58, 40, 84, 250, 133, 186, 61,
   202, 94, 155, 159, 10, 21, 121, 43, 78, 212, 229, 172, 115, 243, 167, 87,
   7, 112, 192, 247, 140, 128, 99, 13, 103, 74, 222, 237, 49, 197, 254, 24,
   227, 165, 153, 119, 38, 184, 180, 124, 17, 68, 146, 217, 35, 32, 137, 46,
   55, 63, 209, 91, 149, 188, 207, 205, 144, 135, 151, 178, 220, 252, 190, 97,
   242, 86, 211, 171, 20, 42, 93, 158, 132, 60, 57, 83, 71, 109, 65, 162,
   31, 45, 67, 216, 183, 123, 164, 118, 196, 23, 73, 236, 127, 12, 111, 246,
   108, 161, 59, 82, 41, 157, 85, 170, 251, 96, 134, 177, 187, 204, 62, 90,
   203, 89, 95, 176, 156, 169, 160, 81, 11, 245, 22, 235, 122, 117, 44, 215,
   79, 174, 213, 233, 230, 231, 173, 232, 116, 214, 244, 234, 168, 80, 88, 175]

/-- Generator polynomials (log-form coefficients), transcribed from GENERATOR_POLYNOMIALS in ec.rs; entry k has length k. -/
def GENERATOR_POLYNOMIALS : List (List Nat) :=
  [[],
   [0],
   [25, 1],
   [198, 199, 3],
   [75, 249, 78, 6],
   [113, 164, 166, 119, 10],
   [166, 0, 134, 5, 176, 15],
   [87, 229, 146, 149, 238, 102, 21],
   [175, 238, 208, 249, 215, 252, 196, 28],
   [95, 246, 137, 231, 235, 149, 11, 123, 36],
   [251, 67, 46, 61, 118, 70, 64, 94, 32, 45],
   [220, 192, 91, 194, 172, 177, 209, 116, 227, 10, 55],
   [102, 43, 98, 121, 187, 113, 198, 143, 131, 87, 157, 66],
   [74, 152, 176, 100, 86, 100, 106, 104, 130, 218, 206, 140, 78],
   [199, 249, 155, 48, 190, 124, 218, 137, 216, 87, 207, 59, 22, 91],
   [8, 183, 61, 91, 202, 37, 51, 58, 58, 237, 140, 124, 5, 99, 105],
   [120, 104, 107, 109, 102, 161, 76, 3, 91, 191, 147, 169, 182, 194, 225, 120],
   [43, 139, 206, 78, 43, 239, 123, 206, 214, 147, 24, 99, 150, 39, 243, 163, 136],
   [215, 234, 158, 94, 184, 97, 118, 170, 79, 187, 152, 148, 252, 179, 5, 98, 96, 153],
   [67, 3, 105, 153, 52, 90, 83, 17, 150, 159, 44, 128, 153, 133, 252, 222, 138, 220, 171],
   [17, 60, 79, 50, 61, 163, 26, 187, 202, 180, 221, 225, 83, 239, 156, 164, 212, 212, 188, 190],
   [240, 233, 104, 247, 181, 140, 67, 98, 85, 200, 210, 115, 148, 137, 230, 36, 122, 254, 148, 175, 210],
   [210, 171, 247, 242, 93, 230, 14, 109, 221, 53, 200, 74, 8, 172, 98, 80, 219, 134, 160, 105, 165, 231],
   [171, 102, 146, 91, 49, 103, 65, 17, 193, 150, 14, 25, 183, 248, 94, 164, 224, 192, 1, 78, 56, 147, 253],
   [229, 121, 135, 48, 211, 117, 251, 126, 159, 180, 169, 152, 192, 226, 228, 218, 111, 0, 117, 232, 87, 96, 227, 21],
   [231, 181, 156, 39, 170, 26, 12, 59, 15, 148, 201, 54, 66, 237, 208, 99, 167, 144, 182, 95, 243, 129, 178, 252, 45],
   [173, 125, 158, 2, 103, 182, 118, 17, 145, 201, 111, 28, 165, 53, 161, 21, 245, 142, 13, 102, 48, 227, 153, 145, 218, 70],
   [79, 228, 8, 165, 227, 21, 180, 29, 9, 237, 70, 99, 45, 58, 138, 135, 73, 126, 172, 94, 216, 193, 157, 26, 17, 149, 96],
   [168, 223, 200, 104, 224, 234, 108, 180, 110, 190, 195, 147, 205, 27, 232, 201, 21, 43, 245, 87, 42, 195, 212, 119, 242, 37, 9, 123],
   [156, 45, 183, 29, 151, 219, 54, 96, 249, 24, 136, 5, 241, 175, 189, 28, 75, 234, 150, 148, 23, 9, 202, 162, 68, 250, 140, 24, 151],
   [41, 173, 145, 152, 216, 31, 179, 182, 50, 48, 110, 86, 239, 96, 222, 125, 42, 173, 226, 193, 224, 130, 156, 37, 251, 216, 238, 40, 192, 180],
   [20, 37, 252, 93, 63, 75, 225, 31, 115, 83, 113, 39, 44, 73, 122, 137, 118, 119, 144, 248, 248, 55, 1, 225, 105, 123, 183, 117, 187, 200, 210],
   [10, 6, 106, 190, 249, 167, 4, 67, 209, 138, 138, 32, 242, 123, 89, 27, 120, 185, 80, 156, 38, 69, 171, 60, 28, 222, 80, 52, 254, 185, 220, 241],
   [245, 231, 55, 24, 71, 78, 76, 81, 225, 212, 173, 37, 215, 46, 119, 229, 245, 167, 126, 72, 181, 94, 165, 210, 98, 125, 159, 184, 169, 232, 185, 231, 18],
   [111, 77, 146, 94, 26, 21, 108, 19, 105, 94, 113, 193, 86, 140, 163, 125, 58, 158, 229, 239, 218, 103, 56, 70, 114, 61, 183, 129, 167, 13, 98, 62, 129, 51],
   [7, 94, 143, 81, 247, 127, 202, 202, 194, 125, 146, 29, 138, 162, 153, 65, 105, 122, 116, 238, 26, 36, 216, 112, 125, 228, 15, 49, 8, 162, 30, 126, 111, 58, 85],
   [200, 183, 98, 16, 172, 31, 246, 234, 60, 152, 115, 0, 167, 152, 113, 248, 238, 107, 18, 63, 218, 37, 87, 210, 105, 177, 120, 74, 121, 196, 117, 251, 113, 233, 30, 120],
   [154, 75, 141, 180, 61, 165, 104, 232, 46, 227, 96, 178, 92, 135, 57, 162, 120, 194, 212, 174, 252, 183, 42, 35, 157, 111, 23, 133, 100, 8, 105, 37, 192, 189, 159, 19, 156],
   [159, 34, 38, 228, 230, 59, 243, 95, 49, 218, 176, 164, 20, 65, 45, 111, 39, 81, 49, 118, 113, 222, 193, 250, 242, 168, 217, 41, 164, 247, 177, 30, 238, 18, 120, 153, 60, 193],
   [81, 216, 174, 47, 200, 150, 59, 156, 89, 143, 89, 166, 183, 170, 152, 21, 165, 177, 113, 132, 234, 5, 154, 68, 124, 175, 196, 157, 249, 233, 83, 24, 153, 241, 126, 36, 116, 19, 231],
   [59, 116, 79, 161, 252, 98, 128, 205, 128, 161, 247, 57, 163, 56, 235, 106, 53, 26, 187, 174, 226, 104, 170, 7, 175, 35, 181, 114, 88, 41, 47, 163, 125, 134, 72, 20, 232, 53, 35, 15],
   [132, 167, 52, 139, 184, 223, 149, 92, 250, 18, 83, 33, 127, 109, 194, 7, 211, 242, 109, 66, 86, 169, 87, 96, 187, 159, 114, 172, 118, 208, 183, 200, 82, 179, 38, 39, 34, 242, 142, 147, 55],
   [250, 103, 221, 230, 25, 18, 137, 231, 0, 3, 58, 242, 221, 191, 110, 84, 230, 8, 188, 106, 96, 147, 15, 131, 139, 34, 101, 223, 39, 101, 213, 199, 237, 254, 201, 123, 171, 162, 194, 117, 50, 96],
   [96, 67, 3, 245, 217, 215, 33, 65, 240, 109, 144, 63, 21, 131, 38, 101, 153, 128, 55, 31, 237, 3, 94, 160, 20, 87, 77, 56, 191, 123, 207, 75, 82, 0, 122, 132, 101, 145, 215, 15, 121, 192, 138],
   [190, 7, 61, 121, 71, 246, 69, 55, 168, 188, 89, 243, 191, 25, 72, 123, 9, 145, 14, 247, 1, 238, 44, 78, 143, 62, 224, 126, 118, 114, 68, 163, 52, 194, 217, 147, 204, 169, 37, 130, 113, 102, 73, 181],
   [6, 172, 72, 250, 18, 171, 171, 162, 229, 187, 239, 4, 187, 11, 37, 228, 102, 72, 102, 22, 33, 73, 95, 99, 132, 1, 15, 89, 4, 112, 130, 95, 211, 235, 227, 58, 35, 88, 132, 23, 44, 165, 54, 187, 225],
   [112, 94, 88, 112, 253, 224, 202, 115, 187, 99, 89, 5, 54, 113, 129, 44, 58, 16, 135, 216, 169, 211, 36, 1, 4, 96, 60, 241, 73, 104, 234, 8, 249, 245, 119, 174, 52, 25, 157, 224, 43, 202, 223, 19, 82, 15],
   [76, 164, 229, 92, 79, 168, 219, 110, 104, 21, 220, 74, 19, 199, 195, 100, 93, 191, 43, 213, 72, 56, 138, 161, 125, 187, 119, 250, 189, 137, 190, 76, 126, 247, 93, 30, 132, 6, 58, 213, 208, 165, 224, 152, 133, 91, 61],
   [228, 25, 196, 130, 211, 146, 60, 24, 251, 90, 39, 102, 240, 61, 178, 63, 46, 123, 115, 18, 221, 111, 135, 160, 182, 205, 107, 206, 95, 150, 120, 184, 91, 21, 247, 156, 140, 238, 191, 11, 94, 227, 84, 50, 163, 39, 34, 108],
   [172, 121, 1, 41, 193, 222, 237, 64, 109, 181, 52, 120, 212, 226, 239, 245, 208, 20, 246, 34, 225, 204, 134, 101, 125, 206, 69, 138, 250, 0, 77, 58, 143, 185, 220, 254, 210, 190, 112, 88, 91, 57, 90, 109, 5, 13, 181, 25, 156],
   [232, 125, 157, 161, 164, 9, 118, 46, 209, 99, 203, 193, 35, 3, 209, 111, 195, 242, 203, 225, 46, 13, 32, 160, 126, 209, 130, 160, 242, 215, 242, 75, 77, 42, 189, 32, 113, 65, 124, 69, 228, 114, 235, 175, 124, 170, 215, 232, 133, 205],
   [213, 166, 142, 43, 10, 216, 141, 163, 172, 180, 102, 70, 89, 62, 222, 62, 42, 210, 151, 163, 218, 70, 77, 39, 166, 191, 114, 202, 245, 188, 183, 221, 75, 212, 27, 237, 127, 204, 235, 62, 190, 232, 18, 46, 171, 15, 98, 247, 66, 163, 0],
   [116, 50, 86, 186, 50, 220, 251, 89, 192, 46, 86, 127, 124, 19, 184, 233, 151, 215, 22, 14, 59, 145, 37, 242, 203, 134, 254, 89, 190, 94, 59, 65, 124, 113, 100, 233, 235, 121, 22, 76, 86, 97, 39, 242, 200, 220, 101, 33, 239, 254, 116, 51],
   [122, 214, 231, 136, 199, 11, 6, 205, 124, 72, 213, 117, 187, 60, 147, 201, 73, 75, 33, 146, 171, 247, 118, 208, 157, 177, 203, 235, 83, 45, 226, 202, 229, 168, 7, 57, 237, 235, 200, 124, 106, 254, 165, 14, 147, 0, 57, 42, 31, 178, 213, 173, 103],
   [183, 26, 201, 87, 210, 221, 113, 21, 46, 65, 45, 50, 238, 184, 249, 225, 102, 58, 209, 218, 109, 165, 26, 95, 184, 192, 52, 245, 35, 254, 238, 175, 172, 79, 123, 25, 122, 43, 120, 108, 215, 80, 128, 201, 235, 8, 153, 59, 101, 31, 198, 76, 31, 156],
   [38, 197, 123, 167, 16, 87, 178, 238, 227, 97, 148, 247, 26, 90, 228, 182, 236, 197, 47, 249, 36, 213, 54, 113, 181, 74, 177, 204, 155, 61, 47, 42, 0, 132, 144, 251, 200, 38, 38, 138, 54, 44, 64, 19, 22, 206, 16, 10, 228, 211, 161, 171, 44, 194, 210],
   [106, 120, 107, 157, 164, 216, 112, 116, 2, 91, 248, 163, 36, 201, 202, 229, 6, 144, 254, 155, 135, 208, 170, 209, 12, 139, 127, 142, 182, 249, 177, 174, 190, 28, 10, 85, 239, 184, 101, 124, 152, 206, 96, 23, 163, 61, 27, 196, 247, 151, 154, 202, 207, 20, 61, 10],
   [58, 140, 237, 93, 106, 61, 193, 2, 87, 73, 194, 215, 159, 163, 10, 155, 5, 121, 153, 59, 248, 4, 117, 22, 60, 177, 144, 44, 72, 228, 62, 1, 19, 170, 113, 158, 25, 175, 199, 139, 90, 1, 210, 7, 119, 154, 89, 159, 130, 122, 46, 147, 190, 135, 94, 68, 66],
   [82, 116, 26, 247, 66, 27, 62, 107, 252, 182, 200, 185, 235, 55, 251, 242, 210, 144, 154, 237, 176, 141, 192, 248, 152, 249, 206, 85, 253, 142, 65, 165, 125, 23, 24, 30, 122, 240, 214, 6, 129, 218, 29, 145, 127, 134, 206, 245, 117, 29, 41, 63, 159, 142, 233, 125, 148, 123],
   [57, 115, 232, 11, 195, 217, 3, 206, 77, 67, 29, 166, 180, 106, 118, 203, 17, 69, 152, 213, 74, 44, 49, 43, 98, 61, 253, 122, 14, 43, 209, 143, 9, 104, 107, 171, 224, 57, 254, 251, 226, 232, 221, 194, 240, 117, 161, 82, 178, 246, 178, 33, 50, 86, 215, 239, 180, 180, 181],
   [107, 140, 26, 12, 9, 141, 243, 197, 226, 197, 219, 45, 211, 101, 219, 120, 28, 181, 127, 6, 100, 247, 2, 205, 198, 57, 115, 219, 101, 109, 160, 82, 37, 38, 238, 49, 160, 209, 121, 86, 11, 124, 30, 181, 84, 25, 194, 87, 65, 102, 190, 220, 70, 27, 209, 16, 89, 7, 33, 240],
   [161, 244, 105, 115, 64, 9, 221, 236, 16, 145, 148, 34, 144, 186, 13, 20, 254, 246, 38, 35, 202, 72, 4, 212, 159, 211, 165, 135, 252, 250, 25, 87, 30, 120, 226, 234, 92, 199, 72, 7, 155, 218, 231, 44, 125, 178, 156, 174, 124, 43, 100, 31, 56, 101, 204, 64, 175, 225, 169, 146, 45],
   [65, 202, 113, 98, 71, 223, 248, 118, 214, 94, 0, 122, 37, 23, 2, 228, 58, 121, 7, 105, 135, 78, 243, 118, 70, 76, 223, 89, 72, 50, 70, 111, 194, 17, 212, 126, 181, 35, 221, 117, 235, 11, 229, 149, 147, 123, 213, 40, 115, 6, 200, 100, 26, 246, 182, 218, 127, 215, 36, 186, 110, 106],
   [30, 71, 36, 71, 19, 195, 172, 110, 61, 2, 169, 194, 90, 136, 59, 182, 231, 145, 102, 39, 170, 231, 214, 67, 196, 207, 53, 112, 246, 90, 90, 121, 183, 146, 74, 77, 38, 89, 22, 231, 55, 56, 242, 112, 217, 110, 123, 62, 201, 217, 128, 165, 60, 181, 37, 161, 246, 132, 246, 18, 115, 136, 168],
   [45, 51, 175, 9, 7, 158, 159, 49, 68, 119, 92, 123, 177, 204, 187, 254, 200, 78, 141, 149, 119, 26, 127, 53, 160, 93, 199, 212, 29, 24, 145, 156, 208, 150, 218, 209, 4, 216, 91, 47, 184, 146, 47, 140, 195, 195, 125, 242, 238, 63, 99, 108, 140, 230, 242, 31, 204, 11, 178, 243, 217, 156, 213, 231],
   [137, 158, 247, 240, 37, 238, 214, 128, 99, 218, 46, 138, 198, 128, 92, 219, 109, 139, 166, 25, 66, 67, 14, 58, 238, 149, 177, 195, 221, 154, 171, 48, 80, 12, 59, 190, 228, 19, 55, 208, 92, 112, 229, 37, 60, 10, 47, 81, 0, 192, 37, 171, 175, 147, 128, 73, 166, 61, 149, 12, 24, 95, 70, 113, 40],
   [5, 118, 222, 180, 136, 136, 162, 51, 46, 117, 13, 215, 81, 17, 139, 247, 197, 171, 95, 173, 65, 137, 178, 68, 111, 95, 101, 41, 72, 214, 169, 197, 95, 7, 44, 154, 77, 111, 236, 40, 121, 143, 63, 87, 80, 253, 240, 126, 217, 77, 34, 232, 106, 50, 168, 82, 76, 146, 67, 106, 171, 25, 132, 93, 45, 105],
   [191, 172, 113, 86, 7, 166, 246, 185, 155, 250, 98, 113, 89, 86, 214, 225, 156, 190, 58, 33, 144, 67, 179, 163, 52, 154, 233, 151, 104, 251, 160, 126, 175, 208, 225, 70, 227, 146, 4, 152, 139, 103, 25, 107, 61, 204, 159, 250, 193, 225, 105, 160, 98, 167, 2, 53, 16, 242, 83, 210, 196, 103, 248, 86, 211, 41, 171],
   [247, 159, 223, 33, 224, 93, 77, 70, 90, 160, 32, 254, 43, 150, 84, 101, 190, 205, 133, 52, 60, 202, 165, 220, 203, 151, 93, 84, 15, 84, 253, 173, 160, 89, 227, 52, 199, 97, 95, 231, 52, 177, 41, 125, 137, 241, 166, 225, 118, 2, 54, 32, 82, 215, 175, 198, 43, 238, 235, 27, 101, 184, 127, 3, 5, 8, 163, 238],
   [105, 73, 68, 1, 29, 168, 117, 14, 88, 208, 55, 46, 42, 217, 6, 84, 179, 97, 6, 240, 192, 231, 158, 64, 118, 160, 203, 57, 61, 108, 199, 124, 65, 187, 221, 167, 39, 182, 159, 180, 244, 203, 228, 254, 13, 175, 61, 90, 206, 40, 199, 94, 67, 57, 81, 229, 46, 123, 89, 37, 31, 202, 66, 250, 35, 170, 243, 88, 51]]

/-- Error-correction bytes per block, transcribed from EC_BYTES_PER_BLOCK in ec.rs (40 rows, columns L M Q H). -/
def EC_BYTES_PER_BLOCK : List (List Nat) :=
  [[7, 10, 13, 17],
   [10, 16, 22, 28],
   [15, 26, 18, 22],
   [20, 18, 26, 16],
   [26, 24, 18, 22],
   [18, 16, 24, 28],
   [20, 18, 18, 26],
   [24, 22, 22, 26],
   [30, 22, 20, 24],
   [18, 26, 24, 28],
   [20, 30, 28, 24],
   [24, 22, 26, 28],
   [26, 22, 24, 22],
   [30, 24, 20, 24],
   [22, 24, 30, 24],
   [24, 28, 24, 30],
   [28, 28, 28, 28],
   [30, 26, 28, 28],
   [28, 26, 26, 26],
   [28, 26, 30, 28],
   [28, 26, 28, 30],
   [28, 28, 30, 24],
   [30, 28, 30, 30],
   [30, 28, 30, 30],
   [26, 28, 30, 30],
   [28, 28, 28, 30],
   [30, 28, 30, 30],
   [30, 28, 30, 30],
   [30, 28, 30, 30],
   [30, 28, 30, 30],
   [30, 28, 30, 30],
   [30, 28, 30, 30],
   [30, 28, 30, 30],
   [30, 28, 30, 30],
   [30, 28, 30, 30],
   [30, 28, 30, 30],
   [30, 28, 30, 30],
   [30, 28, 30, 30],
   [30, 28, 30, 30],
   [30, 28, 30, 30]]

/-- Data bytes per block, transcribed from DATA_BYTES_PER_BLOCK in ec.rs: (block 1 size, block 1 count, block 2 size, block 2 count). -/
def DATA_BYTES_PER_BLOCK : List (List (Nat × Nat × Nat × Nat)) :=
  [[(19, 1, 0, 0), (16, 1, 0, 0), (13, 1, 0, 0), (9, 1, 0, 0)],
   [(34, 1, 0, 0), (28, 1, 0, 0), (22, 1, 0, 0), (16, 1, 0, 0)],
   [(55, 1, 0, 0), (44, 1, 0, 0), (17, 2, 0, 0), (13, 2, 0, 0)],
   [(80, 1, 0, 0), (32, 2, 0, 0), (24, 2, 0, 0), (9, 4, 0, 0)],
   [(108, 1, 0, 0), (43, 2, 0, 0), (15, 2, 16, 2), (11, 2, 12, 2)],
   [(68, 2, 0, 0), (27, 4, 0, 0), (19, 4, 0, 0), (15, 4, 0, 0)],
   [(78, 2, 0, 0), (31, 4, 0, 0), (14, 2, 15, 4), (13, 4, 14, 1)],
   [(97, 2, 0, 0), (38, 2, 39, 2), (18, 4, 19, 2), (14, 4, 15, 2)],
   [(116, 2, 0, 0), (36, 3, 37, 2), (16, 4, 17, 4), (12, 4, 13, 4)],
   [(68, 2, 69, 2), (43, 4, 44, 1), (19, 6, 20, 2), (15, 6, 16, 2)],
   [(81, 4, 0, 0), (50, 1, 51, 4), (22, 4, 23, 4), (12, 3, 13, 8)],
   [(92, 2, 93, 2), (36, 6, 37, 2), (20, 4, 21, 6), (14, 7, 15, 4)],
   [(107, 4, 0, 0), (37, 8, 38, 1), (20, 8, 21, 4), (11, 12, 12, 4)],
   [(115, 3, 116, 1), (40, 4, 41, 5), (16, 11, 17, 5), (12, 11, 13, 5)],
   [(87, 5, 88, 1), (41, 5, 42, 5), (24, 5, 25, 7), (12, 11, 13, 7)],
   [(98, 5, 99, 1), (45, 7, 46, 3), (19, 15, 20, 2), (15, 3, 16, 13)],
   [(107, 1, 108, 5), (46, 10, 47, 1), (22, 1, 23, 15), (14, 2, 15, 17)],
   [(120, 5, 121, 1), (43, 9, 44, 4), (22, 17, 23, 1), (14, 2, 15, 19)],
   [(113, 3, 114, 4), (44, 3, 45, 11), (21, 17, 22, 4), (13, 9, 14, 16)],
   [(107, 3, 108, 5), (41, 3, 42, 13), (24, 15, 25, 5), (15, 15, 16, 10)],
   [(116, 4, 117, 4), (42, 17, 0, 0), (22, 17, 23, 6), (16, 19, 17, 6)],
   [(111, 2, 112, 7), (46, 17, 0, 0), (24, 7, 25, 16), (13, 34, 0, 0)],
   [(121, 4, 122, 5), (47, 4, 48, 14), (24, 11, 25, 14), (15, 16, 16, 14)],
   [(117, 6, 118, 4), (45, 6, 46, 14), (24, 11, 25, 16), (16, 30, 17, 2)],
   [(106, 8, 107, 4), (47, 8, 48, 13), (24, 7, 25, 22), (15, 22, 16, 13)],
   [(114, 10, 115, 2), (46, 19, 47, 4), (22, 28, 23, 6), (16, 33, 17, 4)],
   [(122, 8, 123, 4), (45, 22, 46, 3), (23, 8, 24, 26), (15, 12, 16, 28)],
   [(117, 3, 118, 10), (45, 3, 46, 23), (24, 4, 25, 31), (15, 11, 16, 31)],
   [(116, 7, 117, 7), (45, 21, 46, 7), (23, 1, 24, 37), (15, 19, 16, 26)],
   [(115, 5, 116, 10), (47, 19, 48, 10), (24, 15, 25, 25), (15, 23, 16, 25)],
   [(115, 13, 116, 3), (46, 2, 47, 29), (24, 42, 25, 1), (15, 23, 16, 28)],
   [(115, 17, 0, 0), (46, 10, 47, 23), (24, 10, 25, 35), (15, 19, 16, 35)],
   [(115, 17, 116, 1), (46, 14, 47, 21), (24, 29, 25, 19), (15, 11, 16, 46)],
   [(115, 13, 116, 6), (46, 14, 47, 23), (24, 44, 25, 7), (16, 59, 17, 1)],
   [(121, 12, 122, 7), (47, 12, 48, 26), (24, 39, 25, 14), (15, 22, 16, 41)],
   [(121, 6, 122, 14), (47, 6, 48, 34), (24, 46, 25, 10), (15, 2, 16, 64)],
   [(122, 17, 123, 4), (46, 29, 47, 14), (24, 49, 25, 10), (15, 24, 16, 46)],
   [(122, 4, 123, 18), (46, 13, 47, 32), (24, 48, 25, 14), (15, 42, 16, 32)],
   [(117, 20, 118, 4), (47, 40, 48, 7), (24, 43, 25, 22), (15, 10, 16, 67)],
   [(118, 19, 119, 6), (47, 18, 48, 31), (24, 34, 25, 34), (15, 20, 16, 61)]]

/-- Alignment-pattern center coordinates for versions 2..40, transcribed from COORDS in qrcode.rs. -/
def COORDS : List (List Nat) :=
  [[6, 18],
   [6, 22],
   [6, 26],
   [6, 30],
   [6, 34],
   [6, 22, 38],
   [6, 24, 42],
   [6, 26, 46],
   [6, 28, 50],
   [6, 30, 54],
   [6, 32, 58],
   [6, 34, 62],
   [6, 26, 46, 66],
   [6, 26, 48, 70],
   [6, 26, 50, 74],
   [6, 30, 54, 78],
   [6, 30, 56, 82],
   [6, 30, 58, 86],
   [6, 34, 62, 90],
   [6, 28, 50, 72, 94],
   [6, 26, 50, 74, 98],
   [6, 30, 54, 78, 102],
   [6, 28, 54, 80, 106],
   [6, 32, 58, 84, 110],
   [6, 30, 58, 86, 114],
   [6, 34, 62, 90, 118],
   [6, 26, 50, 74, 98, 122],
   [6, 30, 54, 78, 102, 126],
   [6, 26, 52, 78, 104, 130],
   [6, 30, 56, 82, 108, 134],
   [6, 34, 60, 86, 112, 138],
   [6, 30, 58, 86, 114, 142],
   [6, 34, 62, 90, 118, 146],
   [6, 30, 54, 78, 102, 126, 150],
   [6, 24, 50, 76, 102, 128, 154],
   [6, 28, 54, 80, 106, 132, 158],
   [6, 32, 58, 84, 110, 136, 162],
   [6, 26, 54, 82, 110, 138, 166],
   [6, 30, 58, 86, 114, 142, 170]]

/-- Rust's `slice::chunks(s)`: consecutive chunks of `s` elements, the last possibly
shorter, here as chunk extraction by index. Callers guard `s = 0`, where Rust panics. -/
def chunkList (s : Nat) (l : List Nat) : List (List Nat) :=
  (List.range ((l.length + s - 1) / s)).map fun i => (l.drop (i * s)).take s

/-- GF(256) Reed-Solomon remainder, from `create_ec_for_block` in ec.rs: zero-pad the
block by `ec_size`, run the long division with XOR addition and log-domain
multiplication, and return the `ec_size`-byte tail. -/
def create_ec_for_block (block : List Nat) (ec_size : Nat) (generator_polynomial : List Nat) : List Nat :=
  let data_len := block.length
  let start := block ++ List.replicate ec_size 0
  let final := (List.range data_len).foldl (fun codewords i =>
    let lead_coeff := codewords.getD i 0
    if lead_coeff = 0 then codewords
    else
      let log_lead_coeff := LOG_TABLE.getD lead_coeff 0
      codewords.take (i + 1) ++
        (List.zipWith (fun cw gen_coeff => Nat.xor cw (EXP_TABLE.getD ((gen_coeff + log_lead_coeff) % 255) 0))
            (codewords.drop (i + 1)) generator_polynomial ++
          (codewords.drop (i + 1)).drop generator_polynomial.length)) start
  final.drop data_len

/-- Column-wise interleaving, from `interleave` in ec.rs; `none` models the
`max().unwrap()` panic when the block list is empty. -/
def interleave (blocks : List (List Nat)) : Option (List Nat) :=
  match blocks with
  | [] => none
  | _ :: _ =>
    let max_len := (blocks.map List.length).foldl max 0
    some (((List.range max_len).map fun i => blocks.filterMap fun block => block.get? i).flatten)

/-- Block splitting, per-block EC generation and EC interleaving, from
`error_correction` in ec.rs. `none` models the panics: a table index out of range
(note the EC table is indexed by `version`, not `version - 1`), `chunks(0)`, and
`interleave` applied to no blocks. -/
def error_correction (data : List Nat) (version : Nat) (ec_level : EcLevel) : Option (List Nat) :=
  match DATA_BYTES_PER_BLOCK.get? (version - 1) with
  | none => none
  | some data_row =>
    match data_row.get? ec_level.ordinal with
    | none => none
    | some (block_1_size, block_1_count, block_2_size, block_2_count) =>
      if block_1_size = 0 then none
      else
        let group_1_size := block_1_count * block_1_size
        let blocks :=
          if group_1_size < data.length then
            chunkList block_1_size (data.take group_1_size) ++
              (if 0 < block_2_size then chunkList block_2_size (data.drop group_1_size) else [])
          else
            chunkList block_1_size data
        match blocks.mapM (fun block =>
            match EC_BYTES_PER_BLOCK.get? version with
            | none => none
            | some ec_row =>
              match ec_row.get? ec_level.ordinal with
              | none => none
              | some ec_size =>
                match GENERATOR_POLYNOMIALS.get? ec_size with
                | none => none
                | some generator_polynomial =>
                  some (create_ec_for_block block ec_size generator_polynomial)) with
        | none => none
        | some ec_blocks => interleave ec_blocks

/-- Total data-codeword count the (version, EC) table prescribes:
`n1 * s1 + n2 * s2` read from `DATA_BYTES_PER_BLOCK` at row `version - 1`. -/
def prescribed_data_length (version : Nat) (ec_level : EcLevel) : Nat :=
  match (DATA_BYTES_PER_BLOCK.get? (version - 1)).bind (fun row => row.get? ec_level.ordinal) with
  | some (s1, n1, s2, n2) => n1 * s1 + n2 * s2
  | none => 0

/-- Total number of data blocks the (version, EC) table prescribes: `n1 + n2`. -/
def total_block_count (version : Nat) (ec_level : EcLevel) : Nat :=
  match (DATA_BYTES_PER_BLOCK.get? (version - 1)).bind (fun row => row.get? ec_level.ordinal) with
  | some (_, n1, _, n2) => n1 + n2
  | none => 0

/-- The per-block EC byte count `error_correction` actually uses: the entry of
`EC_BYTES_PER_BLOCK` at row index `version` (not `version - 1`). -/
def ec_size_used (version : Nat) (ec_level : EcLevel) : Nat :=
  ((EC_BYTES_PER_BLOCK.get? version).bind (fun row => row.get? ec_level.ordinal)).getD 0

/-- Interleaving as the spec's §4.C steps 4-5 word it, total: for each column index
below the maximum block length, emit in block order every block that still has that
column. On an empty block list it yields the empty stream. -/
def interleave_spec (blocks : List (List Nat)) : List Nat :=
  let max_len := (blocks.map List.length).foldl max 0
  ((List.range max_len).map fun i => blocks.filterMap fun block => block.get? i).flatten

/-- The full codeword payload as the spec's §4.C words it (the reading claim C1
asserts of `error_correction`): slice the data into `n1` blocks of `s1` then `n2`
blocks of `s2` codewords, compute each block's EC tail with the `ec_size` of the
table row belonging to the version (row `version - 1`), and output the
data-interleaved stream followed by the EC-interleaved stream. -/
def spec_full_payload (data : List Nat) (version : Nat) (ec_level : EcLevel) : List Nat :=
  match (DATA_BYTES_PER_BLOCK.get? (version - 1)).bind (fun row => row.get? ec_level.ordinal) with
  | none => []
  | some (s1, n1, s2, n2) =>
    let blocks :=
      chunkList s1 (data.take (n1 * s1)) ++
        (if 0 < s2 then chunkList s2 (data.drop (n1 * s1)) else [])
    let ec_size := ((EC_BYTES_PER_BLOCK.get? (version - 1)).bind (fun row => row.get? ec_level.ordinal)).getD 0
    let ec_blocks := blocks.map fun block =>
      create_ec_for_block block ec_size (GENERATOR_POLYNOMIALS.getD ec_size [])
    interleave_spec blocks ++ interleave_spec ec_blocks

/-- Modelled from the spec: bit.rs is not under src/. Spec §3 and §9 describe a
module as a sum of two shapes (dark `One`, light `Zero`), each tagged with the
`functional` boolean. -/
inductive Bit where
  | zero : Bool → Bit
  | one : Bool → Bit
deriving DecidableEq

/-- Modelled from the spec: bit.rs is not under src/. `Bit::is_functional` reads
the `functional` tag of either shape. -/
def Bit.is_functional : Bit → Bool
  | .zero f => f
  | .one f => f

/-- Modelled from the spec: encoding.rs is not under src/. Spec §1 lists the four
encoding modes; qrcode.rs only stores the chosen mode. -/
inductive Encoding where
  | Numeric
  | Alphanumeric
  | Byte
  | Kanji
deriving DecidableEq

/-- The QR-code state, from the `QrCode` struct in qrcode.rs: the row-major module
vector plus the construction parameters. -/
structure QrCode where
  data : List Bit
  version : Nat
  ec_level : EcLevel
  mask_pattern : Nat
  encoding : Encoding
deriving DecidableEq

namespace QrCode

/-- From `QrCode::size_from_version` in qrcode.rs. -/
def size_from_version (version : Nat) : Nat :=
  17 + 4 * version

/-- From `QrCode::size` in qrcode.rs. -/
def size (qr : QrCode) : Nat :=
  size_from_version qr.version

/-- From `QrCode::coords_to_index` in qrcode.rs: row-major index, `none` out of bounds. -/
def coords_to_index (x y s : Nat) : Option Nat :=
  if ¬(x < s ∧ y < s) then none else some (x + s * y)

/-- From `QrCode::get` in qrcode.rs: `none` out of bounds, otherwise the stored module. -/
def get (qr : QrCode) (x y : Nat) : Option Bit :=
  match coords_to_index x y qr.size with
  | some index => qr.data.get? index
  | none => none

/-- From `QrCode::put` in qrcode.rs: writes the module in bounds, silently ignores
out-of-bounds coordinates. -/
def put (qr : QrCode) (x y : Nat) (b : Bit) : QrCode :=
  match coords_to_index x y qr.size with
  | some index => { qr with data := qr.data.set index b }
  | none => qr

/-- From `QrCode::new` in qrcode.rs: reject versions outside `[1, 40]`, otherwise
allocate `size * size` light, non-functional modules. The mask is not inspected. -/
def new (version : Nat) (ec_level : EcLevel) (mask_pattern : Nat) (encoding : Encoding) :
    Except String QrCode :=
  if 40 < version ∨ version = 0 then
    Except.error "Invalid version."
  else
    let s := size_from_version version
    Except.ok { data := List.replicate (s * s) (Bit.zero false), version := version, ec_level := ec_level, mask_pattern := mask_pattern, encoding := encoding }

/-- The 7x7 finder pattern, from `FINDER_PATTERN` in qrcode.rs (index `dx + 7 * dy`). -/
def FINDER_PATTERN : List Bit :=
  [Bit.one true, Bit.one true, Bit.one true, Bit.one true, Bit.one true, Bit.one true, Bit.one true,
   Bit.one true, Bit.zero true, Bit.zero true, Bit.zero true, Bit.zero true, Bit.zero true, Bit.one true,
   Bit.one true, Bit.zero true, Bit.one true, Bit.one true, Bit.one true, Bit.zero true, Bit.one true,
   Bit.one true, Bit.zero true, Bit.one true, Bit.one true, Bit.one true, Bit.zero true, Bit.one true,
   Bit.one true, Bit.zero true, Bit.one true, Bit.one true, Bit.one true, Bit.zero true, Bit.one true,
   Bit.one true, Bit.zero true, Bit.zero true, Bit.zero true, Bit.zero true, Bit.zero true, Bit.one true,
   Bit.one true, Bit.one true, Bit.one true, Bit.one true, Bit.one true, Bit.one true, Bit.one true]

/-- From `QrCode::finder_patterns` in qrcode.rs: paint the 7x7 finder at the three
corners, iterating `dx` outer and `dy` inner. -/
def finder_patterns (qr : QrCode) : QrCode :=
  let s := qr.size
  [(0, 0), (s - 7, 0), (0, s - 7)].foldl (fun q corner =>
    (List.range 7).foldl (fun q dx =>
      (List.range 7).foldl (fun q dy =>
        q.put (corner.1 + dx) (corner.2 + dy) (FINDER_PATTERN.getD (dx + 7 * dy) (Bit.zero false))) q) q) qr

/-- From `QrCode::separators_patterns` in qrcode.rs: light functional strips beside
the finders, three vertical runs of 8 and three horizontal runs of 7. -/
def separators_patterns (qr : QrCode) : QrCode :=
  let s := qr.size
  let top := [(7, 0), (s - 8, 0), (7, s - 8)]
  let right := [(0, 7), (s - 7, 7), (0, s - 8)]
  let q1 := top.foldl (fun q p =>
    (List.range 8).foldl (fun q dy => q.put p.1 (p.2 + dy) (Bit.zero true)) q) qr
  right.foldl (fun q p =>
    (List.range 7).foldl (fun q dx => q.put (p.1 + dx) p.2 (Bit.zero true)) q) q1

/-- From `QrCode::combination` in qrcode.rs: the Cartesian product of a coordinate
list with itself, first component in the outer loop. -/
def combination (array : List Nat) : List (Nat × Nat) :=
  (array.map fun elem1 => array.map fun elem2 => (elem1, elem2)).flatten

/-- The 5x5 alignment pattern, from `ALIGNMENT_PATTERN` in qrcode.rs (index `dx + 5 * dy`). -/
def ALIGNMENT_PATTERN : List Bit :=
  [Bit.one true, Bit.one true, Bit.one true, Bit.one true, Bit.one true,
   Bit.one true, Bit.zero true, Bit.zero true, Bit.zero true, Bit.one true,
   Bit.one true, Bit.zero true, Bit.one true, Bit.zero true, Bit.one true,
   Bit.one true, Bit.zero true, Bit.zero true, Bit.zero true, Bit.one true,
   Bit.one true, Bit.one true, Bit.one true, Bit.one true, Bit.one true]

/-- From `QrCode::draw_alignment_pattern` in qrcode.rs: paint the 5x5 pattern with
top-left corner `(x - 2, y - 2)` unless the centre module `(x, y)` is already
functional; `none` models the `get(x, y).unwrap()` panic out of bounds. -/
def draw_alignment_pattern (qr : QrCode) (x y : Nat) : Option QrCode :=
  let cx := x - 2
  let cy := y - 2
  match qr.get x y with
  | none => none
  | some b =>
    if b.is_functional then some qr
    else
      some ((List.range 5).foldl (fun q dx =>
        (List.range 5).foldl (fun q dy =>
          q.put (cx + dx) (cy + dy) (ALIGNMENT_PATTERN.getD (dx + 5 * dy) (Bit.zero false))) q) qr)

/-- From `QrCode::alignment_patterns` in qrcode.rs: for version 1 draw at
`(18, 18)`; otherwise draw at every pair of the Cartesian product of the version's
centre list `COORDS[version - 2]` (a missing row models the index panic). -/
def alignment_patterns (qr : QrCode) : Option QrCode :=
  if qr.version = 1 then
    draw_alignment_pattern qr 18 18
  else
    match COORDS.get? (qr.version - 2) with
    | none => none
    | some coords =>
      (combination coords).foldlM (fun q p => draw_alignment_pattern q p.1 p.2) qr

/-- One cursor movement of the data walk, from the `match up` block inside
`QrCode::fill` in qrcode.rs: either advance within the column pair (zig-zag on the
parity of `i`) or, at the top/bottom edge, reverse direction, shift the column pair
left and skip the timing column. `none` models the usize underflow panic of `x -= 1`. -/
def move_once (s x y : Nat) (up : Bool) (i : Nat) : Option (Nat × Nat × Bool × Nat) :=
  match up with
  | true =>
    if y ≤ 0 then
      if x = 0 then none
      else
        let x1 := x - 1
        let x2 := if x1 = 7 then x1 - 1 else x1
        some (x2, 0, false, i)
    else
      if i % 2 = 0 then
        if x = 0 then none else some (x - 1, y, up, i + 1)
      else
        some (x + 1, y - 1, up, i + 1)
  | false =>
    if s - 1 ≤ y then
      if x = 0 then none
      else
        let x1 := x - 1
        let x2 := if x1 = 7 then x1 - 1 else x1
        some (x2, s - 1, true, i)
    else
      if i % 2 = 0 then
        if x = 0 then none else some (x - 1, y, up, i + 1)
      else
        some (x + 1, y + 1, up, i + 1)

/-- The inner `loop` of `QrCode::fill` in qrcode.rs: move until a non-functional
module is reached. `fuel` bounds the iteration count; `none` models the
`get(..).unwrap()` panic, the underflow panic, and a search that does not finish
within `fuel` steps. -/
def find_next (qr : QrCode) : Nat → Nat → Nat → Bool → Nat → Option (Nat × Nat × Bool × Nat)
  | 0, _, _, _, _ => none
  | fuel + 1, x, y, up, i =>
    match move_once qr.size x y up i with
    | none => none
    | some (x1, y1, up1, i1) =>
      match qr.get x1 y1 with
      | none => none
      | some b =>
        if b.is_functional then find_next qr fuel x1 y1 up1 i1
        else some (x1, y1, up1, i1)

/-- The `for bit in bits` loop of `QrCode::fill` in qrcode.rs: find the next
non-functional module, write the bit there, continue with the rest of the stream. -/
def fill_go (fuel : Nat) : QrCode → Nat → Nat → Bool → Nat → List Bit → Option QrCode
  | qr, _, _, _, _, [] => some qr
  | qr, x, y, up, i, bit :: rest =>
    match find_next qr fuel x y up i with
    | none => none
    | some (x1, y1, up1, i1) => fill_go fuel (qr.put x1 y1 bit) x1 y1 up1 i1 rest

/-- From `QrCode::fill` in qrcode.rs: thread the bitstream through the matrix
starting from cursor `(size - 1, size - 1)` moving up, with `i = 0`. -/
def fill (qr : QrCode) (bits : List Bit) (fuel : Nat) : Option QrCode :=
  fill_go fuel qr (qr.size - 1) (qr.size - 1) true 0 bits

end QrCode

/-- A light non-functional version-1 matrix, used as a concrete instance for the
matrix-substrate theorems. -/
def sample_qrcode : QrCode :=
  { data := List.replicate 441 (Bit.zero false), version := 1, ec_level := EcLevel.L,
    mask_pattern := 1, encoding := Encoding.Alphanumeric }

/-- A version-1 matrix whose bottom-right module (row-major index 440, coordinates
(20, 20)) is marked functional; start state for the fill-invariant instance. -/
def fill_witness_start : QrCode :=
  { data := (List.replicate 441 (Bit.zero false)).set 440 (Bit.zero true), version := 1,
    ec_level := EcLevel.L, mask_pattern := 1, encoding := Encoding.Alphanumeric }

/-- The matrix produced by threading one dark bit through `fill_witness_start`. -/
def fill_witness_result : QrCode :=
  (QrCode.fill fill_witness_start [Bit.one false] 50).getD fill_witness_start

theorem length_data_table : DATA_BYTES_PER_BLOCK.length = 40 := by decide

theorem data_table_entry_facts :
    ∀ row ∈ DATA_BYTES_PER_BLOCK, row.length = 4 ∧
      ∀ e ∈ row, 0 < e.1 ∧ 0 < e.2.1 ∧ (e.2.2.1 = 0 ↔ e.2.2.2 = 0) := by decide

theorem length_ec_table : EC_BYTES_PER_BLOCK.length = 40 := by decide

theorem length_generator_table : GENERATOR_POLYNOMIALS.length = 70 := by decide

theorem ec_table_entry_facts :
    ∀ row ∈ EC_BYTES_PER_BLOCK, row.length = 4 ∧ ∀ e ∈ row, 0 < e ∧ e < 70 := by decide

theorem ordinal_lt_four (ec_level : EcLevel) : ec_level.ordinal < 4 := by
  cases ec_level <;> decide

theorem create_ec_for_block_length (block : List Nat) (ec_size : Nat)
    (generator_polynomial : List Nat) :
    (create_ec_for_block block ec_size generator_polynomial).length = ec_size := by
  unfold create_ec_for_block
  have hfold : ∀ (idxs : List Nat) (cw : List Nat),
      (idxs.foldl (fun codewords i =>
        let lead_coeff := codewords.getD i 0
        if lead_coeff = 0 then codewords
        else
          let log_lead_coeff := LOG_TABLE.getD lead_coeff 0
          codewords.take (i + 1) ++
            (List.zipWith (fun cw gen_coeff =>
                Nat.xor cw (EXP_TABLE.getD ((gen_coeff + log_lead_coeff) % 255) 0))
              (codewords.drop (i + 1)) generator_polynomial ++
              (codewords.drop (i + 1)).drop generator_polynomial.length)) cw).length
        = cw.length := by
    intro idxs
    induction idxs with
    | nil => intro cw; rfl
    | cons i rest ih =>
      intro cw
      rw [List.foldl_cons, ih]
      dsimp only
      split
      · rfl
      · simp only [List.length_append, List.length_take, List.length_zipWith,
          List.length_drop]
        omega
  simp only [List.length_drop, hfold, List.length_append, List.length_replicate]
  omega

theorem chunkList_length_of_mul {s n : Nat} (hs : 0 < s) (l : List Nat)
    (hl : l.length = n * s) : (chunkList s l).length = n := by
  unfold chunkList
  rw [List.length_map, List.length_range, hl]
  have h1 : n * s + s - 1 = s - 1 + n * s := by omega
  rw [h1, Nat.add_mul_div_right _ _ hs, Nat.div_eq_of_lt (by omega)]
  omega

theorem mapM_some_map {α β : Type} (f : α → β) (l : List α) :
    l.mapM (fun a => some (f a)) = some (l.map f) := by
  have hloop : ∀ (t : List α) (acc : List β),
      List.mapM.loop (fun a => some (f a)) t acc = some (acc.reverse ++ t.map f) := by
    intro t
    induction t with
    | nil => intro acc; simp [List.mapM.loop]
    | cons a t ih =>
      intro acc
      simp [List.mapM.loop, ih]
  show List.mapM.loop _ _ _ = _
  rw [hloop]
  simp

theorem foldl_max_replicate (k : Nat) : ∀ (n a : Nat), (List.replicate (n + 1) k).foldl max a = max a k := by
  intro n
  induction n with
  | zero => intro a; rfl
  | succ m ih =>
    intro a
    rw [List.replicate_succ, List.foldl_cons, ih]
    omega

theorem length_filterMap_get (i k : Nat) (hik : i < k) :
    ∀ (bs : List (List Nat)), (∀ b ∈ bs, b.length = k) →
      (bs.filterMap fun block => block.get? i).length = bs.length := by
  intro bs
  induction bs with
  | nil => intro _; rfl
  | cons b rest ih =>
    intro hall
    have hb : b.length = k := hall b (List.mem_cons_self b rest)
    have hlt : i < b.length := by omega
    rw [List.filterMap_cons, List.get?_eq_get hlt]
    simp only [List.length_cons]
    rw [ih (fun x hx => hall x (List.mem_cons_of_mem b hx))]

theorem sum_map_const {α : Type} (c : Nat) :
    ∀ (l : List α) (f : α → Nat), (∀ x ∈ l, f x = c) → (l.map f).sum = l.length * c := by
  intro l
  induction l with
  | nil => intro f _; simp
  | cons a rest ih =>
    intro f hall
    rw [List.map_cons, List.sum_cons, ih f (fun x hx => hall x (List.mem_cons_of_mem a hx)),
      hall a (List.mem_cons_self a rest), List.length_cons]
    ring

theorem interleave_of_const_length {k : Nat} (bs : List (List Nat)) (hne : bs ≠ [])
    (hall : ∀ b ∈ bs, b.length = k) :
    ∃ r, interleave bs = some r ∧ r.length = bs.length * k := by
  obtain ⟨b0, rest, rfl⟩ := List.exists_cons_of_ne_nil hne
  refine ⟨_, rfl, ?_⟩
  have hmap : (b0 :: rest).map List.length = List.replicate (rest.length + 1) k := by
    rw [List.eq_replicate_iff]
    constructor
    · simp
    · intro x hx
      obtain ⟨b, hb, rfl⟩ := List.mem_map.mp hx
      exact hall b hb
  have hmax : ((b0 :: rest).map List.length).foldl max 0 = k := by
    rw [hmap, foldl_max_replicate]
    omega
  simp only [hmax, List.length_flatten, List.map_map]
  rw [sum_map_const ((b0 :: rest).length)]
  · rw [List.length_range]
    ring
  · intro x hx
    exact length_filterMap_get x k (List.mem_range.mp hx) (b0 :: rest) hall

theorem coords_to_index_some {x y s idx : Nat}
    (h : QrCode.coords_to_index x y s = some idx) :
    x < s ∧ y < s ∧ idx = x + s * y := by
  unfold QrCode.coords_to_index at h
  split at h
  · cases h
  · rename_i hcond
    rw [Decidable.not_not] at hcond
    cases h
    exact ⟨hcond.1, hcond.2, rfl⟩

theorem coords_index_inj {x y a b s : Nat} (hx : x < s) (ha : a < s)
    (h : a + s * b = x + s * y) : a = x ∧ b = y := by
  have h1 : (a + s * b) % s = a := by
    rw [Nat.mul_comm, Nat.add_mul_mod_self_right]
    exact Nat.mod_eq_of_lt ha
  have h2 : (x + s * y) % s = x := by
    rw [Nat.mul_comm, Nat.add_mul_mod_self_right]
    exact Nat.mod_eq_of_lt hx
  have hax : a = x := by rw [← h1, h, h2]
  refine ⟨hax, ?_⟩
  subst hax
  have hs : 0 < s := Nat.pos_of_ne_zero (by omega)
  have : s * b = s * y := by omega
  exact Nat.eq_of_mul_eq_mul_left hs this

theorem get_put_of_ne (qr : QrCode) (x y a b : Nat) (v : Bit)
    (hne : ¬(a = x ∧ b = y)) : (qr.put x y v).get a b = qr.get a b := by
  unfold QrCode.put
  cases hxy : QrCode.coords_to_index x y qr.size with
  | none => rfl
  | some i =>
    unfold QrCode.get
    have hsz : ({ qr with data := qr.data.set i v } : QrCode).size = qr.size := rfl
    rw [hsz]
    cases hab : QrCode.coords_to_index a b qr.size with
    | none => rfl
    | some j =>
      show (qr.data.set i v).get? j = qr.data.get? j
      obtain ⟨hx, hy, rfl⟩ := coords_to_index_some hxy
      obtain ⟨ha, hb, rfl⟩ := coords_to_index_some hab
      have hij : x + qr.size * y ≠ a + qr.size * b := by
        intro hcontra
        exact hne (coords_index_inj hx ha hcontra.symm)
      rw [List.get?_eq_getElem?, List.get?_eq_getElem?, List.getElem?_set_ne hij]

theorem find_next_not_functional (qr : QrCode) :
    ∀ (fuel x y : Nat) (up : Bool) (i x1 y1 : Nat) (up1 : Bool) (i1 : Nat),
      QrCode.find_next qr fuel x y up i = some (x1, y1, up1, i1) →
      ∃ b, qr.get x1 y1 = some b ∧ b.is_functional = false := by
  intro fuel
  induction fuel with
  | zero =>
    intro x y up i x1 y1 up1 i1 h
    cases h
  | succ f ih =>
    intro x y up i x1 y1 up1 i1 h
    unfold QrCode.find_next at h
    cases hm : QrCode.move_once qr.size x y up i with
    | none => rw [hm] at h; cases h
    | some st =>
      obtain ⟨x2, y2, up2, i2⟩ := st
      rw [hm] at h
      dsimp only at h
      cases hg : qr.get x2 y2 with
      | none => rw [hg] at h; cases h
      | some b =>
        rw [hg] at h
        dsimp only at h
        by_cases hf : b.is_functional
        · rw [if_pos hf] at h
          exact ih x2 y2 up2 i2 x1 y1 up1 i1 h
        · rw [if_neg hf] at h
          cases h
          exact ⟨b, hg, Bool.eq_false_iff.mpr hf⟩

theorem fill_go_preserves (fuel : Nat) :
    ∀ (bits : List Bit) (qr : QrCode) (x y : Nat) (up : Bool) (i : Nat) (m : QrCode),
      QrCode.fill_go fuel qr x y up i bits = some m →
      ∀ (a b : Nat) (bb : Bit), qr.get a b = some bb → bb.is_functional = true →
        m.get a b = some bb := by
  intro bits
  induction bits with
  | nil =>
    intro qr x y up i m h a b bb hget hfun
    cases h
    exact hget
  | cons bit rest ih =>
    intro qr x y up i m h a b bb hget hfun
    unfold QrCode.fill_go at h
    cases hf : QrCode.find_next qr fuel x y up i with
    | none => rw [hf] at h; cases h
    | some st =>
      obtain ⟨x1, y1, up1, i1⟩ := st
      rw [hf] at h
      dsimp only at h
      obtain ⟨nb, hnb, hnf⟩ := find_next_not_functional qr fuel x y up i x1 y1 up1 i1 hf
      have hpres : (qr.put x1 y1 bit).get a b = some bb := by
        by_cases hc : a = x1 ∧ b = y1
        · obtain ⟨rfl, rfl⟩ := hc
          rw [hget] at hnb
          cases hnb
          rw [hfun] at hnf
          cases hnf
        · rw [get_put_of_ne qr x1 y1 a b bit hc]
          exact hget
      exact ih (qr.put x1 y1 bit) x1 y1 up1 i1 m h a b bb hpres hfun

/-- Claim C1, counterexample: at version 1, EC level L and the prescribed 19 data
codewords, the output of `error_correction` is not the data-interleaved stream
followed by the EC-interleaved stream that the spec describes (it is 10 bytes of
EC, not the 26-byte full payload). -/
theorem error_correction_not_full_payload :
    error_correction (List.replicate 19 1) 1 EcLevel.L ≠
      some (spec_full_payload (List.replicate 19 1) 1 EcLevel.L) := by decide

/-- Claim C2 (code bug): `error_correction` reads `EC_BYTES_PER_BLOCK` at row index
`version` instead of `version - 1`. At version 40 (EC level H, prescribed 1276-byte
input) the access is out of bounds and the call panics; at version 1 (EC level L,
prescribed 19-byte input) the single EC tail has 10 bytes, the entry of the next
version's row, while the row of the table that corresponds to version 1 says 7. -/
theorem error_correction_ec_row_off_by_one :
    error_correction (List.replicate 1276 0) 40 EcLevel.H = none ∧
    (error_correction (List.replicate 19 0) 1 EcLevel.L).map List.length = some 10 ∧
    (EC_BYTES_PER_BLOCK.get? 0).bind (fun row => row.get? EcLevel.L.ordinal) = some 7 := by
  refine ⟨by decide, by decide, by decide⟩

/-- Claim C3: `create_ec_for_block` always returns exactly `ec_size` codewords, and
on the two literal scenarios S1 and S2 of the spec it returns the stated EC tails. -/
theorem create_ec_for_block_remainder :
    (∀ (block : List Nat) (ec_size : Nat) (generator_polynomial : List Nat),
      (create_ec_for_block block ec_size generator_polynomial).length = ec_size) ∧
    create_ec_for_block [1, 2, 3] 3 ((GENERATOR_POLYNOMIALS.get? 3).getD []) =
      [92, 236, 176] ∧
    create_ec_for_block [32, 91, 11, 120, 209, 114, 220, 77, 67, 64, 236, 17, 236] 13
        ((GENERATOR_POLYNOMIALS.get? 13).getD []) =
      [168, 72, 22, 82, 217, 54, 156, 0, 46, 15, 180, 122, 16] :=
  ⟨create_ec_for_block_length, by decide, by decide⟩

/-- Claim C4 (code bug): the data walk advances the cursor before its first write,
so on a fresh version-1 matrix (size 21) the first bit lands at `(19, 20)` and the
start module `(20, 20) = (S-1, S-1)` is never written: after `fill` with a single
dark bit, `(20, 20)` still holds the initial light module. -/
theorem fill_first_write_skips_corner :
    ((QrCode.new 1 EcLevel.L 1 Encoding.Alphanumeric).toOption.bind
        (fun qr => QrCode.fill qr [Bit.one false] 1000)).map
          (fun m => (m.get 20 20, m.get 19 20)) =
      some (some (Bit.zero false), some (Bit.one false)) := by decide

/-- Claim C5 (code bug): for version 1 the alignment phase paints an alignment
pattern. After finder and separator painting on a fresh version-1 matrix the module
`(18, 18)` is light and non-functional, and `alignment_patterns` then paints the
5x5 alignment pattern centred there, leaving `(18, 18)` dark and functional. -/
theorem alignment_pattern_painted_for_version_one :
    ((QrCode.new 1 EcLevel.L 1 Encoding.Alphanumeric).toOption.map
        (fun qr =>
          let q := QrCode.separators_patterns (QrCode.finder_patterns qr)
          (q.get 18 18, (QrCode.alignment_patterns q).bind (fun m => m.get 18 18)))) =
      some (some (Bit.zero false), some (Bit.one true)) := by decide

/-- Claim C6: the data walk never writes to a module that was functional before
`fill` ran. Whenever `fill` returns normally, every module whose functional flag
was set in the input matrix keeps its exact value in the output matrix. -/
theorem fill_preserves_functional_modules (qr : QrCode) (bits : List Bit) (fuel : Nat)
    (m : QrCode) (h : QrCode.fill qr bits fuel = some m) (x y : Nat) (b : Bit)
    (hget : qr.get x y = some b) (hfun : b.is_functional = true) :
    m.get x y = some b :=
  fill_go_preserves fuel bits qr (qr.size - 1) (qr.size - 1) true 0 m h x y b hget hfun

/-- Claim C6, witness: on a version-1 matrix whose module `(20, 20)` is functional,
threading one dark bit leaves `(20, 20)` unchanged. -/
theorem fill_preserves_functional_modules_witness :
    QrCode.get fill_witness_result 20 20 = some (Bit.zero true) :=
  fill_preserves_functional_modules fill_witness_start [Bit.one false] 50
    fill_witness_result (by decide) 20 20 (Bit.zero true) (by decide) (by decide)

/-- Claim C7: `QrCode::new` fails exactly for versions outside `[1, 40]`; for a
version in range it returns the matrix of `S * S` light non-functional modules with
`S = 17 + 4 * version`, and `size` evaluates to 21 at version 1 and 177 at
version 40. -/
theorem new_version_range_and_blank_matrix (version : Nat) (ec_level : EcLevel)
    (mask_pattern : Nat) (encoding : Encoding) :
    (1 ≤ version → version ≤ 40 →
      QrCode.new version ec_level mask_pattern encoding =
        Except.ok
          { data := List.replicate ((17 + 4 * version) * (17 + 4 * version)) (Bit.zero false),
            version := version, ec_level := ec_level, mask_pattern := mask_pattern,
            encoding := encoding } ∧
      QrCode.size_from_version version = 17 + 4 * version) ∧
    ((version = 0 ∨ 40 < version) →
      QrCode.new version ec_level mask_pattern encoding = Except.error "Invalid version.") ∧
    QrCode.size_from_version 1 = 21 ∧ QrCode.size_from_version 40 = 177 := by
  refine ⟨?_, ?_, rfl, rfl⟩
  · intro h1 h2
    unfold QrCode.new
    rw [if_neg (by omega)]
    exact ⟨rfl, rfl⟩
  · intro h
    unfold QrCode.new
    rw [if_pos (by omega)]

/-- Claim C7, witness: construction succeeds at version 1 and fails at version 41. -/
theorem new_version_range_and_blank_matrix_witness :
    (QrCode.new 1 EcLevel.L 1 Encoding.Alphanumeric =
      Except.ok
        { data := List.replicate ((17 + 4 * 1) * (17 + 4 * 1)) (Bit.zero false),
          version := 1, ec_level := EcLevel.L, mask_pattern := 1,
          encoding := Encoding.Alphanumeric } ∧
      QrCode.size_from_version 1 = 17 + 4 * 1) ∧
    QrCode.new 41 EcLevel.L 1 Encoding.Alphanumeric = Except.error "Invalid version." :=
  ⟨(new_version_range_and_blank_matrix 1 EcLevel.L 1 Encoding.Alphanumeric).1
      (by decide) (by decide),
   (new_version_range_and_blank_matrix 41 EcLevel.L 1 Encoding.Alphanumeric).2.1
      (Or.inr (by decide))⟩

/-- Claim C8, counterexample: `QrCode::new` accepts a mask index greater than 7; at
version 1 with mask 8 it returns a `QrCode`, not an error. -/
theorem new_mask_over_seven_ok :
    (QrCode.new 1 EcLevel.L 8 Encoding.Alphanumeric).isOk = true := by decide

/-- Claim C8 (amended): construction never inspects the mask index. For every
version in `[1, 40]`, any EC level and encoding, `QrCode::new` with a mask index
greater than 7 still succeeds. -/
theorem new_ignores_mask (version : Nat) (ec_level : EcLevel) (mask_pattern : Nat)
    (encoding : Encoding) (h1 : 1 ≤ version) (h2 : version ≤ 40)
    (hmask : 7 < mask_pattern) :
    (QrCode.new version ec_level mask_pattern encoding).isOk = true := by
  unfold QrCode.new
  rw [if_neg (by omega)]
  rfl

/-- Claim C8, witness: version 1 with mask 9 constructs successfully. -/
theorem new_ignores_mask_witness :
    (QrCode.new 1 EcLevel.L 9 Encoding.Alphanumeric).isOk = true :=
  new_ignores_mask 1 EcLevel.L 9 Encoding.Alphanumeric (by decide) (by decide) (by decide)

/-- Claim C9: on a well-formed matrix (`S * S` stored modules), `get` returns
`none` exactly off the grid and the stored module otherwise, and an out-of-bounds
`put` returns the matrix unchanged. -/
theorem get_put_bounds (qr : QrCode) (x y : Nat) (b : Bit)
    (hwf : qr.data.length = qr.size * qr.size) :
    ((qr.size ≤ x ∨ qr.size ≤ y) → qr.get x y = none ∧ qr.put x y b = qr) ∧
    (x < qr.size → y < qr.size →
      qr.get x y = qr.data.get? (x + qr.size * y) ∧ (qr.get x y).isSome = true) := by
  constructor
  · intro hout
    unfold QrCode.get QrCode.put QrCode.coords_to_index
    rw [if_pos (by omega)]
    exact ⟨rfl, rfl⟩
  · intro hx hy
    unfold QrCode.get QrCode.coords_to_index
    rw [if_neg (by omega)]
    dsimp only
    refine ⟨rfl, ?_⟩
    have hidx : x + qr.size * y < qr.data.length := by
      rw [hwf]
      have h1 : x + qr.size * y < qr.size * (y + 1) := by
        rw [Nat.mul_succ]
        omega
      have h2 : qr.size * (y + 1) ≤ qr.size * qr.size :=
        Nat.mul_le_mul_left qr.size (by omega)
      omega
    rw [List.get?_eq_get hidx]
    rfl

/-- Claim C9, witness: on the blank version-1 matrix, `get` and `put` at
`(100, 100)` are a `none` and a no-op, and `get` at `(0, 0)` is the stored module. -/
theorem get_put_bounds_witness :
    (QrCode.get sample_qrcode 100 100 = none ∧
      QrCode.put sample_qrcode 100 100 (Bit.one false) = sample_qrcode) ∧
    (QrCode.get sample_qrcode 0 0 =
        sample_qrcode.data.get? (0 + sample_qrcode.size * 0) ∧
      (QrCode.get sample_qrcode 0 0).isSome = true) :=
  ⟨(get_put_bounds sample_qrcode 100 100 (Bit.one false) (by decide)).1
      (Or.inl (by decide)),
   (get_put_bounds sample_qrcode 0 0 (Bit.one false) (by decide)).2
      (by decide) (by decide)⟩

/-- Claim C10: `error_correction` on an empty data vector never returns a stream:
the block list comes out empty and the `max().unwrap()` of `interleave` panics
(modelled as `none`), for every version and EC level. -/
theorem error_correction_empty_data_panics (version : Nat) (ec_level : EcLevel) :
    error_correction [] version ec_level = none := by
  unfold error_correction
  rcases h1 : DATA_BYTES_PER_BLOCK.get? (version - 1) with _ | row
  · rfl
  · dsimp only
    rcases h2 : row.get? ec_level.ordinal with _ | e
    · rfl
    · obtain ⟨s1, n1, s2, n2⟩ := e
      dsimp only
      by_cases hs : s1 = 0
      · rw [if_pos hs]
      · rw [if_neg hs]
        have hchunk : chunkList s1 [] = [] := by
          unfold chunkList
          have hdiv : (List.length ([] : List Nat) + s1 - 1) / s1 = 0 :=
            Nat.div_eq_of_lt (by simp; omega)
          rw [hdiv]
          rfl
        simp only [List.length_nil, Nat.not_lt_zero, if_false, hchunk]
        rfl

/-- Claim C1 (amended): `error_correction` outputs the EC-interleaved stream alone,
not the data-interleaved stream followed by it. For every version in `[1, 39]`
(version 40 panics, see the C2 theorem), every EC level, and data of the prescribed
length, the call succeeds and returns exactly `total_blocks * ec_size_used` EC
bytes — the interleaved per-block EC tails with no data codewords in front. -/
theorem error_correction_returns_ec_stream_only (version : Nat) (ec_level : EcLevel)
    (data : List Nat) (h1 : 1 ≤ version) (h2 : version ≤ 39)
    (hlen : data.length = prescribed_data_length version ec_level) :
    (error_correction data version ec_level).map List.length =
      some (total_block_count version ec_level * ec_size_used version ec_level) := by
  have hvd : version - 1 < DATA_BYTES_PER_BLOCK.length := by
    rw [length_data_table]; omega
  obtain ⟨row, hrow⟩ : ∃ row, DATA_BYTES_PER_BLOCK.get? (version - 1) = some row :=
    ⟨_, List.get?_eq_get hvd⟩
  have hrowfacts := data_table_entry_facts row (List.get?_mem hrow)
  have hord : ec_level.ordinal < row.length := by
    rw [hrowfacts.1]; exact ordinal_lt_four ec_level
  obtain ⟨⟨s1, n1, s2, n2⟩, hentry⟩ : ∃ e, row.get? ec_level.ordinal = some e :=
    ⟨_, List.get?_eq_get hord⟩
  obtain ⟨hs1, hn1, hiff⟩ := hrowfacts.2 (s1, n1, s2, n2) (List.get?_mem hentry)
  dsimp only at hs1 hn1 hiff
  have hve : version < EC_BYTES_PER_BLOCK.length := by
    rw [length_ec_table]; omega
  obtain ⟨erow, herow⟩ : ∃ erow, EC_BYTES_PER_BLOCK.get? version = some erow :=
    ⟨_, List.get?_eq_get hve⟩
  have herofacts := ec_table_entry_facts erow (List.get?_mem herow)
  have hkord : ec_level.ordinal < erow.length := by
    rw [herofacts.1]; exact ordinal_lt_four ec_level
  obtain ⟨k, hk⟩ : ∃ k, erow.get? ec_level.ordinal = some k :=
    ⟨_, List.get?_eq_get hkord⟩
  obtain ⟨hkpos, hklt⟩ := herofacts.2 k (List.get?_mem hk)
  have hkg : k < GENERATOR_POLYNOMIALS.length := by
    rw [length_generator_table]; omega
  obtain ⟨g, hgen⟩ : ∃ g, GENERATOR_POLYNOMIALS.get? k = some g :=
    ⟨_, List.get?_eq_get hkg⟩
  have hplen : prescribed_data_length version ec_level = n1 * s1 + n2 * s2 := by
    unfold prescribed_data_length
    rw [hrow, Option.some_bind, hentry]
  have htot : total_block_count version ec_level = n1 + n2 := by
    unfold total_block_count
    rw [hrow, Option.some_bind, hentry]
  have hecsize : ec_size_used version ec_level = k := by
    unfold ec_size_used
    rw [herow, Option.some_bind, hk]
    rfl
  have hd : data.length = n1 * s1 + n2 * s2 := by rw [hlen, hplen]
  have hfinish : ∀ blocks : List (List Nat), blocks.length = n1 + n2 →
      Option.map List.length
          (interleave (blocks.map (fun block => create_ec_for_block block k g))) =
        some (total_block_count version ec_level * ec_size_used version ec_level) := by
    intro blocks hblen
    have hall : ∀ b ∈ blocks.map (fun block => create_ec_for_block block k g),
        b.length = k := by
      intro b hb
      obtain ⟨blk, _, rfl⟩ := List.mem_map.mp hb
      exact create_ec_for_block_length blk k g
    have hne : blocks.map (fun block => create_ec_for_block block k g) ≠ [] := by
      intro hnil
      have hl := congrArg List.length hnil
      rw [List.length_map, hblen] at hl
      simp at hl
      omega
    obtain ⟨r, hr, hrlen⟩ := interleave_of_const_length _ hne hall
    rw [hr]
    show some r.length = _
    rw [hrlen, List.length_map, hblen, htot, hecsize]
  unfold error_correction
  rw [hrow]
  dsimp only
  rw [hentry]
  dsimp only
  rw [if_neg (by omega : ¬ s1 = 0)]
  simp only [herow, hk, hgen]
  by_cases hcase : n1 * s1 < data.length
  · rw [if_pos hcase]
    have hs2pos : 0 < s2 := by
      rcases Nat.eq_zero_or_pos s2 with h0 | hpos
      · exfalso
        have hn2 : n2 = 0 := hiff.mp h0
        have hB : n2 * s2 = 0 := by rw [hn2, Nat.zero_mul]
        omega
      · exact hpos
    rw [if_pos hs2pos,
      mapM_some_map (fun block => create_ec_for_block block k g)]
    dsimp only
    apply hfinish
    rw [List.length_append]
    have hlen1 : (data.take (n1 * s1)).length = n1 * s1 := by
      rw [List.length_take]
      omega
    have hlen2 : (data.drop (n1 * s1)).length = n2 * s2 := by
      rw [List.length_drop]
      omega
    rw [chunkList_length_of_mul hs1 _ hlen1, chunkList_length_of_mul hs2pos _ hlen2]
  · rw [if_neg hcase,
      mapM_some_map (fun block => create_ec_for_block block k g)]
    dsimp only
    have hzero : n2 * s2 = 0 := by omega
    have hn2 : n2 = 0 := by
      rcases Nat.mul_eq_zero.mp hzero with h0 | h0
      · exact h0
      · exact hiff.mp h0
    apply hfinish
    have hlen0 : data.length = n1 * s1 := by omega
    rw [chunkList_length_of_mul hs1 _ hlen0, hn2]
    omega


/-- Claim C1 (amended), witness: at version 1, EC level L and 19 data codewords the
output is the single-block EC stream of `1 * 10` bytes. -/
theorem error_correction_returns_ec_stream_only_witness :
    (error_correction (List.replicate 19 5) 1 EcLevel.L).map List.length =
      some (total_block_count 1 EcLevel.L * ec_size_used 1 EcLevel.L) :=
  error_correction_returns_ec_stream_only 1 EcLevel.L (List.replicate 19 5)
    (by decide) (by decide) (by decide)
